import Mathlib

/-!
Shallow embedding of the session-ticket module (`src/ticket.py`).

Bytes are modelled as `List Nat` (each entry a byte value).  The external
cryptographic primitives (AES-CBC and HMAC-SHA256 from `Crypto.*`) are not
part of this repository; they enter as function parameters
`aesEnc`/`aesDec` (key, IV, message) and `hmacF` (key, message), with the
properties the library guarantees (inverse encryption/decryption, output
lengths) taken as hypotheses where a theorem needs them.

Python exceptions (failed `assert`, a `TypeError` on `None` arithmetic) are
modelled as `Except.error ()`; a normal return of `None` is
`Except.ok none`.
-/

namespace Ticket

/-- Length of the IV which is used for AES-CBC (`IV_LENGTH` in the source). -/
def IV_LENGTH : Nat := 16

/-- Length of the HMAC used to authenticate the ticket. -/
def HMAC_KEY_LENGTH : Nat := 32

/-- Length of the AES key used to encrypt the ticket. -/
def AES_KEY_LENGTH : Nat := 16

/-- The 18-byte ASCII identifier string `"ScrambleSuitTicket"` from the source. -/
def IDENTIFIER : List Nat :=
  [83, 99, 114, 97, 109, 98, 108, 101, 83, 117, 105, 116, 84, 105, 99, 107, 101, 116]

/-- Modelled from the spec: `const.py` is not under `src/`; the spec's wire
format table and the module docstring fix the total ticket length at 112
bytes (`const.TICKET_LENGTH`). -/
def TICKET_LENGTH : Nat := 112

/-- Modelled from the spec: `const.MASTER_KEY_LENGTH` is not under `src/`;
the spec fixes the master key at 32 bytes. -/
def MASTER_KEY_LENGTH : Nat := 32

/-- Encoding of `struct.pack` with format `I`: a 4-byte little-endian
unsigned 32-bit integer (native order, consistent across issue/redeem). -/
def pack4 (n : Nat) : List Nat :=
  [n % 256, n / 256 % 256, n / 65536 % 256, n / 16777216 % 256]

/-- Decoding of `struct.unpack` with format `I` applied to 4 bytes. -/
def unpack4 (l : List Nat) : Nat :=
  match l with
  | [a, b, c, d] => a + 256 * b + 65536 * c + 16777216 * d
  | _ => 0

/-- The module-level globals `HMACKey`, `AESKey`, `creationTime`, all
initialised to `None` (line 50 of the source). -/
structure KeyState where
  HMACKey : Option (List Nat)
  AESKey : Option (List Nat)
  creationTime : Option Int
deriving DecidableEq

/-- `rotateKeys()`: overwrites the three globals with freshly drawn keys and
the current time.  The randomness is passed in as `newH`/`newA`.  The
`pickle.dump` to `const.KEY_STORE` has no effect on the in-memory state
(an `IOError` there is caught and only logged), so the persistence write
does not appear in the state transition. -/
def rotateKeys (newH newA : List Nat) (now : Int) (_gs : KeyState) : KeyState :=
  { HMACKey := some newH, AESKey := some newA, creationTime := some now }

/-- `loadKeys()`: the key store is modelled as
`store : Option (Option (Int × List Nat × List Nat))` — `none` means the
file does not exist (so `rotateKeys` runs), `some none` means `open`/`pickle`
raised `IOError` (caught and logged; the globals stay as they were), and
`some (some (t, h, a))` is a successful read of
`[creationTime, HMACKey, AESKey]`. -/
def loadKeys (store : Option (Option (Int × List Nat × List Nat)))
    (newH newA : List Nat) (now : Int) (gs : KeyState) : KeyState :=
  match store with
  | none => rotateKeys newH newA now gs
  | some none => gs
  | some (some (t, h, a)) =>
      { HMACKey := some h, AESKey := some a, creationTime := some t }

/-- `checkKeys()`: loads the keys when either is `None`, then compares
`int(time.time()) - creationTime` against `const.KEY_ROTATION_TIME`
(modelled as the parameter `rotationTime`, since `const.py` is not under
`src/`).  When `creationTime` is still `None` at that subtraction the
Python code raises a `TypeError` (`int - None`), modelled as
`Except.error ()`. -/
def checkKeys (store : Option (Option (Int × List Nat × List Nat)))
    (newH newA : List Nat) (rotationTime now : Int) (gs : KeyState) :
    Except Unit KeyState :=
  let gs1 := if gs.HMACKey = none ∨ gs.AESKey = none
             then loadKeys store newH newA now gs else gs
  match gs1.creationTime with
  | none => Except.error ()
  | some t =>
      if now - t > rotationTime then Except.ok (rotateKeys newH newA now gs1)
      else Except.ok gs1

/-- `ProtocolState`: the plaintext record carried inside a ticket.  The
`identifier` and `pad` fields are set to constants by `__init__` exactly as
in the source. -/
structure ProtocolState where
  masterKey : List Nat
  issueDate : Nat
  identifier : List Nat := IDENTIFIER
  pad : List Nat := List.replicate 10 0
deriving DecidableEq

/-- `ProtocolState.__repr__`: `struct.pack('I', issueDate) + identifier +
masterKey + pad`. -/
def ProtocolState.repr (s : ProtocolState) : List Nat :=
  pack4 s.issueDate ++ s.identifier ++ s.masterKey ++ s.pad

/-- `ProtocolState.isValid`: `assert self.issueDate` fails when
`issueDate = 0` (Python truthiness), modelled as `Except.error ()`;
otherwise the result is `now - issueDate <= const.SESSION_TICKET_LIFETIME`
(the lifetime constant is the parameter `lifetime`, `const.py` not being
under `src/`).  The function reads only the record and the clock — its
arguments contain no key material. -/
def ProtocolState.isValid (s : ProtocolState) (now lifetime : Int) :
    Except Unit Bool :=
  if s.issueDate = 0 then Except.error ()
  else if (now - (s.issueDate : Int)) > lifetime then Except.ok false
  else Except.ok true

/-- Body of `decrypt` from the HMAC verification on (lines 125-144 of the
source), once `checkKeys` has supplied the two key globals `hk`/`ak`:
HMAC verification over the first 80 bytes, CBC decryption of bytes 16..80
with the ticket's own IV, layout parsing, and the identifier comparison.
The `return None` paths are `none`. -/
def decryptCore (hmacF : List Nat → List Nat → List Nat)
    (aesDec : List Nat → List Nat → List Nat → List Nat)
    (hk ak : List Nat) (ticket : List Nat) : Option ProtocolState :=
  if hmacF hk (ticket.take 80) ≠ ticket.drop 80 then none
  else if ((aesDec ak (ticket.take 16) ((ticket.drop 16).take 64)).drop 4).take 18 ≠ IDENTIFIER
  then none
  else some
    { masterKey := ((aesDec ak (ticket.take 16) ((ticket.drop 16).take 64)).drop 22).take 32
      issueDate := unpack4 ((aesDec ak (ticket.take 16) ((ticket.drop 16).take 64)).take 4) }

/-- `decrypt(ticket)`: length assert, `checkKeys()`, then the verification
and decryption body `decryptCore`.  A failed assert, or the `TypeError`
that `checkKeys` can raise, is `Except.error ()`; the `return None` paths
are `Except.ok none`.  The impossible case in which `checkKeys` succeeds
while a key global is still `None` would make `HMAC.new(None, ...)` raise,
hence `Except.error ()` there as well. -/
def decrypt (hmacF : List Nat → List Nat → List Nat)
    (aesDec : List Nat → List Nat → List Nat → List Nat)
    (store : Option (Option (Int × List Nat × List Nat)))
    (newH newA : List Nat) (rotationTime now : Int)
    (gs : KeyState) (ticket : List Nat) : Except Unit (Option ProtocolState) :=
  if ticket.length ≠ TICKET_LENGTH then Except.error ()
  else
    match checkKeys store newH newA rotationTime now gs with
    | Except.error _ => Except.error ()
    | Except.ok gs2 =>
        match gs2.HMACKey, gs2.AESKey with
        | some hk, some ak => Except.ok (decryptCore hmacF aesDec hk ak ticket)
        | _, _ => Except.error ()

/-- `SessionTicket`: the object captures its IV, its protocol state and the
two key globals in `__init__`. -/
structure SessionTicket where
  IV : List Nat
  state : ProtocolState
  symmTicketKey : List Nat
  hmacTicketKey : List Nat
deriving DecidableEq

/-- `SessionTicket.__init__`: asserts the master-key length, draws a fresh
IV (passed in as `IV`), and snapshots the key globals as they stand after
`checkKeys()` (passed in as `hk`/`ak`).  `importDate` is the default
`issueDate` the contained `ProtocolState` starts with (it is overwritten by
`issue`). -/
def SessionTicket.init (hk ak masterKey IV : List Nat) (importDate : Nat) :
    Except Unit SessionTicket :=
  if masterKey.length ≠ MASTER_KEY_LENGTH then Except.error ()
  else Except.ok
    { IV := IV
      state := { masterKey := masterKey, issueDate := importDate }
      symmTicketKey := ak
      hmacTicketKey := hk }

/-- `SessionTicket.issue`: stamps `issueDate` with the current time,
serialises the state, asserts the plaintext is block-aligned, encrypts it
under the snapshotted AES key and IV, authenticates `IV || ciphertext`
under the snapshotted HMAC key, and returns `IV || ciphertext || hmac`. -/
def SessionTicket.issue (aesEnc : List Nat → List Nat → List Nat → List Nat)
    (hmacF : List Nat → List Nat → List Nat)
    (tkt : SessionTicket) (now : Nat) : Except Unit (List Nat) :=
  let st := { tkt.state with issueDate := now }
  let state := ProtocolState.repr st
  if state.length % 16 ≠ 0 then Except.error ()
  else
    let cryptedState := aesEnc tkt.symmTicketKey tkt.IV state
    let hmac := hmacF tkt.hmacTicketKey (tkt.IV ++ cryptedState)
    Except.ok (tkt.IV ++ cryptedState ++ hmac)

/-- Spec-side description of the wire format of an issued ticket
(specification section 6): IV, then the encryption of the serialised
record, then the tag over `iv || ciphertext`.  Used to state what
`SessionTicket.issue` returns. -/
def ticketLayout (aesEnc : List Nat → List Nat → List Nat → List Nat)
    (hmacF : List Nat → List Nat → List Nat)
    (hk ak mk iv : List Nat) (t : Nat) : List Nat :=
  iv ++ aesEnc ak iv (ProtocolState.repr { masterKey := mk, issueDate := t }) ++
    hmacF hk (iv ++ aesEnc ak iv (ProtocolState.repr { masterKey := mk, issueDate := t }))

/-- Decidable equality for `Except`, so that concrete runs of `decrypt`,
`checkKeys` and `isValid` can be settled by `decide`. -/
instance {e a : Type} [DecidableEq e] [DecidableEq a] : DecidableEq (Except e a) := fun x y =>
  match x, y with
  | Except.error u, Except.error v =>
      if h : u = v then isTrue (by rw [h]) else isFalse (fun hh => h (by injection hh))
  | Except.error _, Except.ok _ => isFalse (fun hh => Except.noConfusion hh)
  | Except.ok _, Except.error _ => isFalse (fun hh => Except.noConfusion hh)
  | Except.ok u, Except.ok v =>
      if h : u = v then isTrue (by rw [h]) else isFalse (fun hh => h (by injection hh))

theorem unpack4_pack4 (n : Nat) (h : n < 4294967296) : unpack4 (pack4 n) = n := by
  simp only [pack4, unpack4]
  omega

theorem repr_length (s : ProtocolState)
    (hmk : s.masterKey.length = 32) (hid : s.identifier.length = 18)
    (hpad : s.pad.length = 10) : (ProtocolState.repr s).length = 64 := by
  simp [ProtocolState.repr, pack4, hmk, hid, hpad]

theorem repr_eq (mk : List Nat) (t : Nat) :
    ProtocolState.repr { masterKey := mk, issueDate := t } =
    pack4 t ++ IDENTIFIER ++ mk ++ List.replicate 10 0 := rfl

theorem repr_take4 (mk : List Nat) (t : Nat) :
    (ProtocolState.repr { masterKey := mk, issueDate := t }).take 4 = pack4 t := by
  rw [repr_eq, List.append_assoc, List.append_assoc]
  exact List.take_left' (by simp [pack4])

theorem repr_drop4_take18 (mk : List Nat) (t : Nat) :
    ((ProtocolState.repr { masterKey := mk, issueDate := t }).drop 4).take 18 =
    IDENTIFIER := by
  rw [repr_eq, List.append_assoc, List.append_assoc,
      List.drop_left' (show (pack4 t).length = 4 by simp [pack4])]
  exact List.take_left' (show IDENTIFIER.length = 18 from rfl)

theorem repr_drop22_take32 (mk : List Nat) (t : Nat)
    (hmk : mk.length = 32) :
    ((ProtocolState.repr { masterKey := mk, issueDate := t }).drop 22).take 32 =
    mk := by
  rw [repr_eq, List.append_assoc,
      List.drop_left' (show (pack4 t ++ IDENTIFIER).length = 22 by simp [pack4, IDENTIFIER])]
  exact List.take_left' hmk

theorem checkKeys_fresh (store : Option (Option (Int × List Nat × List Nat)))
    (newH newA : List Nat) (rotationTime now : Int) (hk ak : List Nat) (ct0 : Int)
    (hfresh : now - ct0 ≤ rotationTime) :
    checkKeys store newH newA rotationTime now
      { HMACKey := some hk, AESKey := some ak, creationTime := some ct0 } =
    Except.ok { HMACKey := some hk, AESKey := some ak, creationTime := some ct0 } := by
  simp [checkKeys, show ¬(now - ct0 > rotationTime) by omega]

theorem decrypt_fresh (hmacF : List Nat → List Nat → List Nat)
    (aesDec : List Nat → List Nat → List Nat → List Nat)
    (store : Option (Option (Int × List Nat × List Nat)))
    (newH newA : List Nat) (rotationTime now : Int) (hk ak : List Nat) (ct0 : Int)
    (tk : List Nat) (hlen : tk.length = 112) (hfresh : now - ct0 ≤ rotationTime) :
    decrypt hmacF aesDec store newH newA rotationTime now
      { HMACKey := some hk, AESKey := some ak, creationTime := some ct0 } tk =
    Except.ok (decryptCore hmacF aesDec hk ak tk) := by
  unfold decrypt
  rw [if_neg (by simp [hlen, TICKET_LENGTH]),
      checkKeys_fresh store newH newA rotationTime now hk ak ct0 hfresh]

theorem issue_eq (aesEnc : List Nat → List Nat → List Nat → List Nat)
    (hmacF : List Nat → List Nat → List Nat)
    (hk ak mk iv : List Nat) (d0 t : Nat) (hmk : mk.length = 32) :
    SessionTicket.issue aesEnc hmacF
      { IV := iv, state := { masterKey := mk, issueDate := d0 },
        symmTicketKey := ak, hmacTicketKey := hk } t =
    Except.ok (ticketLayout aesEnc hmacF hk ak mk iv t) := by
  have h64 : (ProtocolState.repr { masterKey := mk, issueDate := t }).length = 64 :=
    repr_length { masterKey := mk, issueDate := t } hmk rfl rfl
  simp only [SessionTicket.issue]
  rw [if_neg (show ¬((ProtocolState.repr { masterKey := mk, issueDate := t }).length % 16 ≠ 0)
        by rw [h64]; decide)]
  rfl

theorem ticketLayout_ct_length (aesEnc : List Nat → List Nat → List Nat → List Nat)
    (ak mk iv : List Nat) (t : Nat) (hmk : mk.length = 32)
    (hE : ∀ k v m, (aesEnc k v m).length = m.length) :
    (aesEnc ak iv (ProtocolState.repr { masterKey := mk, issueDate := t })).length = 64 := by
  rw [hE]; exact repr_length { masterKey := mk, issueDate := t } hmk rfl rfl

theorem ticketLayout_length (aesEnc : List Nat → List Nat → List Nat → List Nat)
    (hmacF : List Nat → List Nat → List Nat) (hk ak mk iv : List Nat) (t : Nat)
    (hmk : mk.length = 32) (hiv : iv.length = 16)
    (hE : ∀ k v m, (aesEnc k v m).length = m.length)
    (hH : ∀ k m, (hmacF k m).length = 32) :
    (ticketLayout aesEnc hmacF hk ak mk iv t).length = 112 := by
  have hct := ticketLayout_ct_length aesEnc ak mk iv t hmk hE
  rw [ticketLayout, List.length_append, List.length_append, hct, hiv, hH]

theorem ticketLayout_take16 (aesEnc : List Nat → List Nat → List Nat → List Nat)
    (hmacF : List Nat → List Nat → List Nat) (hk ak mk iv : List Nat) (t : Nat)
    (hiv : iv.length = 16) :
    (ticketLayout aesEnc hmacF hk ak mk iv t).take 16 = iv := by
  rw [ticketLayout, List.append_assoc]
  exact List.take_left' hiv

theorem ticketLayout_take80 (aesEnc : List Nat → List Nat → List Nat → List Nat)
    (hmacF : List Nat → List Nat → List Nat) (hk ak mk iv : List Nat) (t : Nat)
    (hmk : mk.length = 32) (hiv : iv.length = 16)
    (hE : ∀ k v m, (aesEnc k v m).length = m.length) :
    (ticketLayout aesEnc hmacF hk ak mk iv t).take 80 =
    iv ++ aesEnc ak iv (ProtocolState.repr { masterKey := mk, issueDate := t }) := by
  have hct := ticketLayout_ct_length aesEnc ak mk iv t hmk hE
  rw [ticketLayout]
  exact List.take_left' (by rw [List.length_append, hiv, hct])

theorem ticketLayout_drop80 (aesEnc : List Nat → List Nat → List Nat → List Nat)
    (hmacF : List Nat → List Nat → List Nat) (hk ak mk iv : List Nat) (t : Nat)
    (hmk : mk.length = 32) (hiv : iv.length = 16)
    (hE : ∀ k v m, (aesEnc k v m).length = m.length) :
    (ticketLayout aesEnc hmacF hk ak mk iv t).drop 80 =
    hmacF hk (iv ++ aesEnc ak iv (ProtocolState.repr { masterKey := mk, issueDate := t })) := by
  have hct := ticketLayout_ct_length aesEnc ak mk iv t hmk hE
  rw [ticketLayout]
  exact List.drop_left' (by rw [List.length_append, hiv, hct])

theorem ticketLayout_drop16_take64 (aesEnc : List Nat → List Nat → List Nat → List Nat)
    (hmacF : List Nat → List Nat → List Nat) (hk ak mk iv : List Nat) (t : Nat)
    (hmk : mk.length = 32) (hiv : iv.length = 16)
    (hE : ∀ k v m, (aesEnc k v m).length = m.length) :
    ((ticketLayout aesEnc hmacF hk ak mk iv t).drop 16).take 64 =
    aesEnc ak iv (ProtocolState.repr { masterKey := mk, issueDate := t }) := by
  rw [ticketLayout, List.append_assoc, List.drop_left' hiv]
  exact List.take_left' (ticketLayout_ct_length aesEnc ak mk iv t hmk hE)

/-- C1: Round-trip — for every 32-byte master key `mk` and every time `t`
in unsigned 32-bit range, building a `SessionTicket`, issuing a ticket for
`(mk, t)` under the active epoch `(hk, ak)` and passing the resulting
112-byte ticket to `decrypt` under the same epoch yields an accepted
record whose `masterKey` equals `mk` and whose `issueDate` equals `t`.
The cryptographic primitives are abstract parameters satisfying the
library guarantees (CBC decryption inverts encryption, encryption
preserves length, the HMAC digest is 32 bytes); the epoch is unexpired at
redemption so `checkKeys` does not rotate it away. -/
theorem roundtrip_issue_decrypt
    (aesEnc aesDec : List Nat → List Nat → List Nat → List Nat)
    (hmacF : List Nat → List Nat → List Nat)
    (hk ak mk iv newH newA : List Nat)
    (store : Option (Option (Int × List Nat × List Nat)))
    (d0 t : Nat) (ct0 rotationTime now : Int)
    (hmk : mk.length = 32) (hiv : iv.length = 16) (ht : t < 4294967296)
    (hdec : ∀ k v m, aesDec k v (aesEnc k v m) = m)
    (hE : ∀ k v m, (aesEnc k v m).length = m.length)
    (hH : ∀ k m, (hmacF k m).length = 32)
    (hfresh : now - ct0 ≤ rotationTime) :
    SessionTicket.init hk ak mk iv d0 =
      Except.ok { IV := iv, state := { masterKey := mk, issueDate := d0 },
                  symmTicketKey := ak, hmacTicketKey := hk } ∧
    SessionTicket.issue aesEnc hmacF
      { IV := iv, state := { masterKey := mk, issueDate := d0 },
        symmTicketKey := ak, hmacTicketKey := hk } t =
      Except.ok (ticketLayout aesEnc hmacF hk ak mk iv t) ∧
    decrypt hmacF aesDec store newH newA rotationTime now
      { HMACKey := some hk, AESKey := some ak, creationTime := some ct0 }
      (ticketLayout aesEnc hmacF hk ak mk iv t) =
      Except.ok (some { masterKey := mk, issueDate := t }) := by
  refine ⟨by simp [SessionTicket.init, MASTER_KEY_LENGTH, hmk],
          issue_eq aesEnc hmacF hk ak mk iv d0 t hmk, ?_⟩
  rw [decrypt_fresh hmacF aesDec store newH newA rotationTime now hk ak ct0 _
        (ticketLayout_length aesEnc hmacF hk ak mk iv t hmk hiv hE hH) hfresh]
  unfold decryptCore
  rw [ticketLayout_take80 aesEnc hmacF hk ak mk iv t hmk hiv hE,
      ticketLayout_drop80 aesEnc hmacF hk ak mk iv t hmk hiv hE,
      if_neg (show ¬(hmacF hk _ ≠ hmacF hk _) from fun h => h rfl),
      ticketLayout_take16 aesEnc hmacF hk ak mk iv t hiv,
      ticketLayout_drop16_take64 aesEnc hmacF hk ak mk iv t hmk hiv hE,
      hdec, repr_drop4_take18, repr_take4, repr_drop22_take32 mk t hmk,
      unpack4_pack4 t ht,
      if_neg (show ¬(IDENTIFIER ≠ IDENTIFIER) from fun h => h rfl)]

/-- Witness for the round-trip theorem at the spec's concrete scenario:
master key 32 bytes of value 17 (0x11), issue date 1000000000, identity
encryption and a constant 32-byte digest as the abstract primitives. -/
theorem roundtrip_issue_decrypt_witness :
    decrypt (fun _ _ => List.replicate 32 7) (fun _ _ c => c) none [] [] 0 0
      { HMACKey := some (List.replicate 32 1), AESKey := some (List.replicate 16 2),
        creationTime := some 0 }
      (ticketLayout (fun _ _ m => m) (fun _ _ => List.replicate 32 7)
        (List.replicate 32 1) (List.replicate 16 2) (List.replicate 32 17)
        (List.replicate 16 0) 1000000000) =
    Except.ok (some { masterKey := List.replicate 32 17, issueDate := 1000000000 }) :=
  (roundtrip_issue_decrypt (fun _ _ m => m) (fun _ _ c => c)
    (fun _ _ => List.replicate 32 7) (List.replicate 32 1) (List.replicate 16 2)
    (List.replicate 32 17) (List.replicate 16 0) [] [] none 0 1000000000 0 0 0
    (by decide) (by decide) (by decide)
    (fun _ _ _ => rfl) (fun _ _ _ => rfl) (fun _ _ => rfl)
    (by decide)).2.2

/-- C3: authentication failure is a rejection, not an error — for every
112-byte input whose trailing 32 bytes differ from the HMAC, under the
candidate epoch's authentication key, of the first 80 bytes, `decrypt`
returns the rejection value `Except.ok none`, and does so for every
decryption function `aesDec`, i.e. without performing any decryption of
the ciphertext. -/
theorem auth_failure_rejected
    (hmacF : List Nat → List Nat → List Nat)
    (store : Option (Option (Int × List Nat × List Nat)))
    (newH newA hk ak tk : List Nat) (rotationTime now ct0 : Int)
    (hlen : tk.length = 112) (hfresh : now - ct0 ≤ rotationTime)
    (hbad : hmacF hk (tk.take 80) ≠ tk.drop 80) :
    ∀ aesDec : List Nat → List Nat → List Nat → List Nat,
      decrypt hmacF aesDec store newH newA rotationTime now
        { HMACKey := some hk, AESKey := some ak, creationTime := some ct0 } tk =
      Except.ok none := by
  intro aesDec
  rw [decrypt_fresh hmacF aesDec store newH newA rotationTime now hk ak ct0 tk hlen hfresh]
  unfold decryptCore
  rw [if_pos hbad]

/-- Witness for the authentication-failure theorem at the spec's concrete
scenario: the 112-byte all-zero buffer is rejected (its trailing 32 zero
bytes differ from the HMAC digest of its first 80 bytes). -/
theorem auth_failure_rejected_witness :
    decrypt (fun _ _ => List.replicate 32 1) (fun _ _ c => c) none [] [] 0 0
      { HMACKey := some (List.replicate 32 0), AESKey := some (List.replicate 16 0),
        creationTime := some 0 } (List.replicate 112 0) = Except.ok none :=
  auth_failure_rejected (fun _ _ => List.replicate 32 1) none [] []
    (List.replicate 32 0) (List.replicate 16 0) (List.replicate 112 0) 0 0 0
    (by decide) (by decide) (by decide) (fun _ _ c => c)

/-- C4 counterexample: on a 111-byte buffer, `decrypt` fails its length
assertion and raises (`Except.error ()`), which is not the typed rejection
value `Except.ok none` that the other failures return. -/
theorem bad_length_counterexample :
    decrypt (fun _ _ => List.replicate 32 0) (fun _ _ c => c) none [] [] 0 0
      { HMACKey := some (List.replicate 32 0), AESKey := some (List.replicate 16 0),
        creationTime := some 0 } (List.replicate 111 0) = Except.error () ∧
    (Except.error () : Except Unit (Option ProtocolState)) ≠ Except.ok none :=
  ⟨by decide, by decide⟩

/-- C4 (amended): for every input whose length differs from 112 bytes,
`decrypt` fails the length assertion and raises (`Except.error ()`) rather
than returning the typed rejection `Except.ok none`; no cryptographic work
is attempted — the outcome is the same for every `hmacF`, `aesDec`, key
state and store. -/
theorem bad_length_raises
    (hmacF : List Nat → List Nat → List Nat)
    (aesDec : List Nat → List Nat → List Nat → List Nat)
    (store : Option (Option (Int × List Nat × List Nat)))
    (newH newA tk : List Nat) (rotationTime now : Int) (gs : KeyState)
    (h : tk.length ≠ 112) :
    decrypt hmacF aesDec store newH newA rotationTime now gs tk =
    Except.error () := by
  unfold decrypt
  rw [if_pos (by simpa [TICKET_LENGTH] using h)]

/-- Witness for the amended C4 theorem at a 113-byte buffer. -/
theorem bad_length_raises_witness :
    decrypt (fun _ _ => List.replicate 32 0) (fun _ _ c => c) none [] [] 0 0
      { HMACKey := some (List.replicate 32 0), AESKey := some (List.replicate 16 0),
        creationTime := some 0 } (List.replicate 113 0) = Except.error () :=
  bad_length_raises _ _ _ _ _ _ _ _ _ (by decide)

/-- C6: format mismatch — for every 112-byte input that passes HMAC
verification but whose decrypted bytes at offsets 4..21 differ from the
18-byte identifier tag, `decrypt` returns the rejection `Except.ok none`,
and that rejection is the same observable value as the one returned for
any input that fails authentication. -/
theorem format_mismatch_rejected
    (hmacF : List Nat → List Nat → List Nat)
    (aesDec : List Nat → List Nat → List Nat → List Nat)
    (store : Option (Option (Int × List Nat × List Nat)))
    (newH newA hk ak tk : List Nat) (rotationTime now ct0 : Int)
    (hlen : tk.length = 112) (hfresh : now - ct0 ≤ rotationTime)
    (hmacok : hmacF hk (tk.take 80) = tk.drop 80)
    (hid : ((aesDec ak (tk.take 16) ((tk.drop 16).take 64)).drop 4).take 18 ≠ IDENTIFIER) :
    decrypt hmacF aesDec store newH newA rotationTime now
      { HMACKey := some hk, AESKey := some ak, creationTime := some ct0 } tk =
      Except.ok none ∧
    ∀ tk2 : List Nat, tk2.length = 112 → hmacF hk (tk2.take 80) ≠ tk2.drop 80 →
      decrypt hmacF aesDec store newH newA rotationTime now
        { HMACKey := some hk, AESKey := some ak, creationTime := some ct0 } tk2 =
      decrypt hmacF aesDec store newH newA rotationTime now
        { HMACKey := some hk, AESKey := some ak, creationTime := some ct0 } tk := by
  have h1 : decrypt hmacF aesDec store newH newA rotationTime now
      { HMACKey := some hk, AESKey := some ak, creationTime := some ct0 } tk =
      Except.ok none := by
    rw [decrypt_fresh hmacF aesDec store newH newA rotationTime now hk ak ct0 tk hlen hfresh]
    unfold decryptCore
    rw [if_neg (show ¬(hmacF hk (tk.take 80) ≠ tk.drop 80) from fun h => h hmacok),
        if_pos hid]
  refine ⟨h1, fun tk2 hl2 hb2 => ?_⟩
  rw [h1, decrypt_fresh hmacF aesDec store newH newA rotationTime now hk ak ct0 tk2 hl2 hfresh]
  unfold decryptCore
  rw [if_pos hb2]

/-- Witness for the format-mismatch theorem: an all-zero 112-byte buffer
under a digest function that makes its HMAC verify; the decrypted
identifier bytes are 18 zero bytes, not the tag, so the result is the
rejection `Except.ok none`. -/
theorem format_mismatch_rejected_witness :
    decrypt (fun _ _ => List.replicate 32 0) (fun _ _ c => c) none [] [] 0 0
      { HMACKey := some (List.replicate 32 0), AESKey := some (List.replicate 16 0),
        creationTime := some 0 } (List.replicate 112 0) = Except.ok none :=
  (format_mismatch_rejected (fun _ _ => List.replicate 32 0) (fun _ _ c => c) none [] []
    (List.replicate 32 0) (List.replicate 16 0) (List.replicate 112 0) 0 0 0
    (by decide) (by decide) (by decide) (by decide)).1

/-- C5: IV freshness — for a fixed protocol state (same epoch keys, same
master key, same clock second), two `SessionTicket` constructions whose
random source returned distinct 16-byte IVs issue tickets whose first 16
bytes differ, hence the two issuance calls never produce the same output
bytes. -/
theorem iv_freshness
    (aesEnc : List Nat → List Nat → List Nat → List Nat)
    (hmacF : List Nat → List Nat → List Nat)
    (hk ak mk iv1 iv2 : List Nat) (d0 n : Nat)
    (hmk : mk.length = 32) (h1 : iv1.length = 16) (h2 : iv2.length = 16)
    (hne : iv1 ≠ iv2) :
    SessionTicket.issue aesEnc hmacF
      { IV := iv1, state := { masterKey := mk, issueDate := d0 },
        symmTicketKey := ak, hmacTicketKey := hk } n =
      Except.ok (ticketLayout aesEnc hmacF hk ak mk iv1 n) ∧
    SessionTicket.issue aesEnc hmacF
      { IV := iv2, state := { masterKey := mk, issueDate := d0 },
        symmTicketKey := ak, hmacTicketKey := hk } n =
      Except.ok (ticketLayout aesEnc hmacF hk ak mk iv2 n) ∧
    (ticketLayout aesEnc hmacF hk ak mk iv1 n).take 16 ≠
      (ticketLayout aesEnc hmacF hk ak mk iv2 n).take 16 ∧
    ticketLayout aesEnc hmacF hk ak mk iv1 n ≠
      ticketLayout aesEnc hmacF hk ak mk iv2 n := by
  have t1 := ticketLayout_take16 aesEnc hmacF hk ak mk iv1 n h1
  have t2 := ticketLayout_take16 aesEnc hmacF hk ak mk iv2 n h2
  refine ⟨issue_eq aesEnc hmacF hk ak mk iv1 d0 n hmk,
          issue_eq aesEnc hmacF hk ak mk iv2 d0 n hmk, ?_, ?_⟩
  · rw [t1, t2]; exact hne
  · intro h; apply hne; rw [← t1, ← t2, h]

/-- Witness for the IV-freshness theorem: two all-distinct concrete IVs
yield distinct tickets. -/
theorem iv_freshness_witness :
    ticketLayout (fun _ _ m => m) (fun _ _ => List.replicate 32 7)
      (List.replicate 32 1) (List.replicate 16 2) (List.replicate 32 17)
      (List.replicate 16 0) 1000 ≠
    ticketLayout (fun _ _ m => m) (fun _ _ => List.replicate 32 7)
      (List.replicate 32 1) (List.replicate 16 2) (List.replicate 32 17)
      (List.replicate 16 4) 1000 :=
  (iv_freshness (fun _ _ m => m) (fun _ _ => List.replicate 32 7)
    (List.replicate 32 1) (List.replicate 16 2) (List.replicate 32 17)
    (List.replicate 16 0) (List.replicate 16 4) 0 1000
    (by decide) (by decide) (by decide) (by decide)).2.2.2

/-- C8: length invariant of issuance — for every 32-byte master key,
`issue` returns exactly 112 bytes laid out as the 16-byte IV, then 64
bytes of ciphertext (the encryption of the 64-byte serialised record:
4-byte issue date, 18-byte identifier, 32-byte master key, 10 zero
padding bytes), then the 32-byte authentication tag computed over the
first 80 bytes. -/
theorem issue_length_invariant
    (aesEnc : List Nat → List Nat → List Nat → List Nat)
    (hmacF : List Nat → List Nat → List Nat)
    (hk ak mk iv : List Nat) (d0 t : Nat)
    (hmk : mk.length = 32) (hiv : iv.length = 16)
    (hE : ∀ k v m, (aesEnc k v m).length = m.length)
    (hH : ∀ k m, (hmacF k m).length = 32) :
    SessionTicket.issue aesEnc hmacF
      { IV := iv, state := { masterKey := mk, issueDate := d0 },
        symmTicketKey := ak, hmacTicketKey := hk } t =
      Except.ok (ticketLayout aesEnc hmacF hk ak mk iv t) ∧
    (ticketLayout aesEnc hmacF hk ak mk iv t).length = 112 ∧
    (ticketLayout aesEnc hmacF hk ak mk iv t).take 16 = iv ∧
    ((ticketLayout aesEnc hmacF hk ak mk iv t).drop 16).take 64 =
      aesEnc ak iv (pack4 t ++ IDENTIFIER ++ mk ++ List.replicate 10 0) ∧
    (aesEnc ak iv (pack4 t ++ IDENTIFIER ++ mk ++ List.replicate 10 0)).length = 64 ∧
    (ticketLayout aesEnc hmacF hk ak mk iv t).drop 80 =
      hmacF hk ((ticketLayout aesEnc hmacF hk ak mk iv t).take 80) ∧
    (hmacF hk ((ticketLayout aesEnc hmacF hk ak mk iv t).take 80)).length = 32 := by
  have hct := ticketLayout_ct_length aesEnc ak mk iv t hmk hE
  refine ⟨issue_eq aesEnc hmacF hk ak mk iv d0 t hmk,
          ticketLayout_length aesEnc hmacF hk ak mk iv t hmk hiv hE hH,
          ticketLayout_take16 aesEnc hmacF hk ak mk iv t hiv, ?_, ?_, ?_, hH _ _⟩
  · rw [ticketLayout_drop16_take64 aesEnc hmacF hk ak mk iv t hmk hiv hE, repr_eq]
  · rw [← repr_eq mk t]; exact hct
  · rw [ticketLayout_drop80 aesEnc hmacF hk ak mk iv t hmk hiv hE,
        ticketLayout_take80 aesEnc hmacF hk ak mk iv t hmk hiv hE]

/-- Witness for the issuance length invariant: a concrete ticket has
exactly 112 bytes. -/
theorem issue_length_invariant_witness :
    (ticketLayout (fun _ _ m => m) (fun _ _ => List.replicate 32 7)
      (List.replicate 32 1) (List.replicate 16 2) (List.replicate 32 17)
      (List.replicate 16 0) 1000000000).length = 112 :=
  (issue_length_invariant (fun _ _ m => m) (fun _ _ => List.replicate 32 7)
    (List.replicate 32 1) (List.replicate 16 2) (List.replicate 32 17)
    (List.replicate 16 0) 0 1000000000 (by decide) (by decide)
    (fun _ _ _ => rfl) (fun _ _ => rfl)).2.1

/-- C10: a `SessionTicket` snapshots its key material and IV at
construction time — `init` stores the epoch keys and the freshly drawn IV
in the object and `issue` reads only those fields, so the produced ticket
is fully determined by the construction-time epoch `(hk, ak)`, the IV and
the clock second: a key rotation between construction and `issue` (which
only replaces the module globals, never the object's fields) cannot change
the ticket's keys, two `issue` calls on the same object agree on their
first 16 bytes (the single IV drawn in `__init__`), and the whole tickets
are byte-identical whenever both calls observe the same clock second. -/
theorem snapshot_keys_and_iv
    (aesEnc : List Nat → List Nat → List Nat → List Nat)
    (hmacF : List Nat → List Nat → List Nat)
    (hk ak mk iv : List Nat) (d0 n1 n2 : Nat)
    (hmk : mk.length = 32) (hiv : iv.length = 16) :
    SessionTicket.init hk ak mk iv d0 =
      Except.ok { IV := iv, state := { masterKey := mk, issueDate := d0 },
                  symmTicketKey := ak, hmacTicketKey := hk } ∧
    ({ IV := iv, state := { masterKey := mk, issueDate := d0 },
       symmTicketKey := ak, hmacTicketKey := hk } : SessionTicket).symmTicketKey = ak ∧
    ({ IV := iv, state := { masterKey := mk, issueDate := d0 },
       symmTicketKey := ak, hmacTicketKey := hk } : SessionTicket).hmacTicketKey = hk ∧
    ({ IV := iv, state := { masterKey := mk, issueDate := d0 },
       symmTicketKey := ak, hmacTicketKey := hk } : SessionTicket).IV = iv ∧
    SessionTicket.issue aesEnc hmacF
      { IV := iv, state := { masterKey := mk, issueDate := d0 },
        symmTicketKey := ak, hmacTicketKey := hk } n1 =
      Except.ok (ticketLayout aesEnc hmacF hk ak mk iv n1) ∧
    SessionTicket.issue aesEnc hmacF
      { IV := iv, state := { masterKey := mk, issueDate := d0 },
        symmTicketKey := ak, hmacTicketKey := hk } n2 =
      Except.ok (ticketLayout aesEnc hmacF hk ak mk iv n2) ∧
    (ticketLayout aesEnc hmacF hk ak mk iv n1).take 16 =
      (ticketLayout aesEnc hmacF hk ak mk iv n2).take 16 ∧
    (n1 = n2 → ticketLayout aesEnc hmacF hk ak mk iv n1 =
      ticketLayout aesEnc hmacF hk ak mk iv n2) := by
  refine ⟨by simp [SessionTicket.init, MASTER_KEY_LENGTH, hmk], rfl, rfl, rfl,
          issue_eq aesEnc hmacF hk ak mk iv d0 n1 hmk,
          issue_eq aesEnc hmacF hk ak mk iv d0 n2 hmk, ?_, ?_⟩
  · rw [ticketLayout_take16 aesEnc hmacF hk ak mk iv n1 hiv,
        ticketLayout_take16 aesEnc hmacF hk ak mk iv n2 hiv]
  · intro h; rw [h]

/-- Witness for the snapshot theorem: two concrete `issue` calls on the
same object share their first 16 bytes. -/
theorem snapshot_keys_and_iv_witness :
    (ticketLayout (fun _ _ m => m) (fun _ _ => List.replicate 32 7)
      (List.replicate 32 1) (List.replicate 16 2) (List.replicate 32 17)
      (List.replicate 16 9) 1000).take 16 =
    (ticketLayout (fun _ _ m => m) (fun _ _ => List.replicate 32 7)
      (List.replicate 32 1) (List.replicate 16 2) (List.replicate 32 17)
      (List.replicate 16 9) 2000).take 16 :=
  (snapshot_keys_and_iv (fun _ _ m => m) (fun _ _ => List.replicate 32 7)
    (List.replicate 32 1) (List.replicate 16 2) (List.replicate 32 17)
    (List.replicate 16 9) 0 1000 2000 (by decide) (by decide)).2.2.2.2.2.2.1

/-- C7 counterexample: for a record with `issueDate = 0` the source's
`assert self.issueDate` fails (Python truthiness of the integer 0), so
`isValid` raises instead of returning true, although
`now - issueDate <= lifetime` holds at `now = 0`, `lifetime = 10`. -/
theorem isValid_zero_counterexample :
    ({ masterKey := List.replicate 32 17, issueDate := 0 } : ProtocolState).isValid 0 10 =
      Except.error () ∧
    ({ masterKey := List.replicate 32 17, issueDate := 0 } : ProtocolState).isValid 0 10 ≠
      Except.ok true ∧
    (0 : Int) - ((0 : Nat) : Int) ≤ 10 :=
  ⟨by decide, by decide, by decide⟩

/-- C7 (amended): for every record whose `issueDate` is nonzero (the
source's `assert self.issueDate` rules the zero date out) and every
nonnegative lifetime, `isValid` returns true exactly when
`now - issueDate <= lifetime`; in particular it is true at
`now = issueDate`, false at `now = issueDate + lifetime + 1`, and a
negative elapsed time (issue date in the future) is valid under the same
inequality.  `isValid` consults only the record and the clock — no key
material occurs among its arguments. -/
theorem isValid_iff (s : ProtocolState) (L : Int)
    (h0 : s.issueDate ≠ 0) (hL : 0 ≤ L) :
    (∀ now : Int, s.isValid now L = Except.ok true ↔ now - (s.issueDate : Int) ≤ L) ∧
    s.isValid (s.issueDate : Int) L = Except.ok true ∧
    s.isValid ((s.issueDate : Int) + L + 1) L = Except.ok false ∧
    (∀ now : Int, now ≤ (s.issueDate : Int) → s.isValid now L = Except.ok true) := by
  have hbase : ∀ now : Int, s.isValid now L =
      (if now - (s.issueDate : Int) > L then Except.ok false else Except.ok true) := by
    intro now; unfold ProtocolState.isValid; rw [if_neg h0]
  refine ⟨fun now => ?_, ?_, ?_, fun now h => ?_⟩
  · rw [hbase]
    by_cases hc : now - (s.issueDate : Int) > L
    · rw [if_pos hc]
      exact iff_of_false (by simp) (by omega)
    · rw [if_neg hc]
      exact iff_of_true rfl (by omega)
  · rw [hbase, if_neg (by omega)]
  · rw [hbase, if_pos (by omega)]
  · rw [hbase, if_neg (by omega)]

/-- Witness for the amended expiry theorem: a record issued at time 5 is
valid at `now = 5` with lifetime 10. -/
theorem isValid_iff_witness :
    ({ masterKey := List.replicate 32 17, issueDate := 5 } : ProtocolState).isValid
      ((5 : Nat) : Int) 10 = Except.ok true :=
  (isValid_iff { masterKey := List.replicate 32 17, issueDate := 5 } 10
    (by decide) (by decide)).2.1

/-- C2 evaluated on the code: `rotateKeys` overwrites the key globals
without retaining the prior epoch — contradicting its own docstring, which
says the old keys are still cached for the next period to validate
previously issued tickets — so a ticket issued under epoch `(hk, ak)` is
rejected by `decrypt` immediately after a rotation, inside any grace
window (`now - Trot <= rotationTime`), whenever the new HMAC key yields a
different digest for the ticket than the recorded tag. -/
theorem rotation_discards_prior_epoch
    (aesEnc aesDec : List Nat → List Nat → List Nat → List Nat)
    (hmacF : List Nat → List Nat → List Nat)
    (hk ak mk iv newH newA nH2 nA2 : List Nat)
    (store : Option (Option (Int × List Nat × List Nat)))
    (d0 t : Nat) (T1 Trot rotationTime now : Int)
    (hmk : mk.length = 32) (hiv : iv.length = 16)
    (hE : ∀ k v m, (aesEnc k v m).length = m.length)
    (hH : ∀ k m, (hmacF k m).length = 32)
    (hgrace : now - Trot ≤ rotationTime)
    (hne : hmacF newH ((ticketLayout aesEnc hmacF hk ak mk iv t).take 80) ≠
           (ticketLayout aesEnc hmacF hk ak mk iv t).drop 80) :
    SessionTicket.issue aesEnc hmacF
      { IV := iv, state := { masterKey := mk, issueDate := d0 },
        symmTicketKey := ak, hmacTicketKey := hk } t =
      Except.ok (ticketLayout aesEnc hmacF hk ak mk iv t) ∧
    rotateKeys newH newA Trot
      { HMACKey := some hk, AESKey := some ak, creationTime := some T1 } =
      { HMACKey := some newH, AESKey := some newA, creationTime := some Trot } ∧
    decrypt hmacF aesDec store nH2 nA2 rotationTime now
      (rotateKeys newH newA Trot
        { HMACKey := some hk, AESKey := some ak, creationTime := some T1 })
      (ticketLayout aesEnc hmacF hk ak mk iv t) =
      Except.ok none := by
  refine ⟨issue_eq aesEnc hmacF hk ak mk iv d0 t hmk, rfl, ?_⟩
  have hrot : rotateKeys newH newA Trot
      { HMACKey := some hk, AESKey := some ak, creationTime := some T1 } =
      { HMACKey := some newH, AESKey := some newA, creationTime := some Trot } := rfl
  rw [hrot, decrypt_fresh hmacF aesDec store nH2 nA2 rotationTime now newH newA Trot _
        (ticketLayout_length aesEnc hmacF hk ak mk iv t hmk hiv hE hH) hgrace]
  unfold decryptCore
  rw [if_pos hne]

/-- Witness for the rotation theorem: concrete keys where the digest
depends on the first key byte, so the rotated epoch computes a different
tag and the pre-rotation ticket is rejected right after the rotation. -/
theorem rotation_discards_prior_epoch_witness :
    decrypt (fun k _ => List.replicate 32 (k.headD 0)) (fun _ _ c => c) none [] [] 100 50
      (rotateKeys (List.replicate 32 2) (List.replicate 16 3) 5
        { HMACKey := some (List.replicate 32 1), AESKey := some (List.replicate 16 0),
          creationTime := some 0 })
      (ticketLayout (fun _ _ m => m) (fun k _ => List.replicate 32 (k.headD 0))
        (List.replicate 32 1) (List.replicate 16 0) (List.replicate 32 17)
        (List.replicate 16 0) 7) =
    Except.ok none :=
  (rotation_discards_prior_epoch (fun _ _ m => m) (fun _ _ c => c)
    (fun k _ => List.replicate 32 (k.headD 0))
    (List.replicate 32 1) (List.replicate 16 0) (List.replicate 32 17)
    (List.replicate 16 0) (List.replicate 32 2) (List.replicate 16 3) [] [] none
    0 7 0 5 100 50 (by decide) (by decide)
    (fun _ _ _ => rfl) (fun _ _ => by simp) (by decide) (by decide)).2.2

/-- C9 evaluated on the code: with no keys in memory and a key store that
exists but raises `IOError` on read, `loadKeys` catches the error leaving
all three globals `None`, and `checkKeys` then crashes with a `TypeError`
on `int(time.time()) - None` instead of falling back to a freshly
generated in-memory epoch.  (A pure write failure, by contrast, is
harmless: `rotateKeys` installs the freshly generated in-memory epoch no
matter what happens to the store, as the second conjunct records.) -/
theorem read_failure_crashes_checkKeys
    (newH newA : List Nat) (rotationTime now : Int) :
    checkKeys (some none) newH newA rotationTime now
      { HMACKey := none, AESKey := none, creationTime := none } =
      Except.error () ∧
    rotateKeys newH newA now
      { HMACKey := none, AESKey := none, creationTime := none } =
      { HMACKey := some newH, AESKey := some newA, creationTime := some now } :=
  ⟨rfl, rfl⟩

end Ticket
